import Mathlib

/-!
Verification development for the ADBC NULL-parameter reproduction program
(src/c_example.c). The program is a single straight-line procedure calling
driver entry points in a fixed order, checking status codes with the
CHECK_ADBC macro (print to stderr and return 1 on non-OK), and printing
progress to stdout. We embed it as a pure function of a driver oracle:
the oracle assigns to each driver call site the status code the call
returns and the message (if any) it writes into the AdbcError record.
The run produces an event trace (driver calls with their arguments and
codes, stdout prints, stderr error prints, columnar batch builds and
releases) together with the process exit code.
-/

/-- Arrow column types used by the program: NANOARROW_TYPE_STRING and
NANOARROW_TYPE_NA (the no-type marker). -/
inductive ArrowType where
  | string
  | na
deriving DecidableEq, Repr

/-- One column of a columnar batch: its Arrow type, its name, and its cell
values (none = NULL cell). -/
structure Column where
  typ : ArrowType
  name : String
  values : List (Option String)
deriving DecidableEq, Repr

/-- A columnar batch paired with its schema: a list of typed, named columns. -/
abbrev Batch : Type := List Column

/-- Batch built at lines 78-93: schema is a struct of 2 children, both
NANOARROW_TYPE_STRING, named "0" and "1"; one row is appended with the
strings "Alice" and "alice@example.com". -/
def positiveBatch : Batch :=
  [⟨ArrowType.string, "0", [some "Alice"]⟩,
   ⟨ArrowType.string, "1", [some "alice@example.com"]⟩]

/-- Batch built at lines 111-125: schema is a struct of 2 children, child 0
NANOARROW_TYPE_STRING named "0", child 1 NANOARROW_TYPE_NA named "1"; one row
is appended with the string "Bob" and a single NULL (ArrowArrayAppendNull
with count 1). -/
def negativeBatch : Batch :=
  [⟨ArrowType.string, "0", [some "Bob"]⟩,
   ⟨ArrowType.na, "1", [none]⟩]

/-- SQL text set at line 57. -/
def dropQuery : String := "DROP TABLE IF EXISTS test_nulls"

/-- SQL text set at line 64. -/
def createQuery : String := "CREATE TABLE test_nulls (id SERIAL PRIMARY KEY, name TEXT, email TEXT)"

/-- SQL text set at lines 73 and 106 (identical for both inserts). -/
def insertQuery : String := "INSERT INTO test_nulls (name, email) VALUES ($1, $2)"

/-- Number of positional placeholders in a query: occurrences of the dollar
sign marker. -/
def placeholderCount (q : String) : Nat :=
  (q.data.filter (fun ch => ch = '$')).length

/-- The driver call sites of main, in program order. Statement handles are
numbered by the order of the four AdbcStatementNew calls; the reused local
variable holds a fresh handle each time. -/
inductive CallSite where
  | databaseNew        -- line 45
  | dbSetOptionDriver  -- line 46
  | dbSetOptionUri     -- line 47
  | databaseInit       -- line 48
  | connectionNew      -- line 51
  | connectionInit     -- line 52
  | statementNew1      -- line 56
  | setSqlQueryDrop    -- line 57
  | executeQueryDrop   -- line 60
  | statementRelease1  -- line 61 (status ignored)
  | statementNew2      -- line 63
  | setSqlQueryCreate  -- line 64
  | executeQueryCreate -- line 67
  | statementRelease2  -- line 68 (status ignored)
  | statementNew3      -- line 72
  | setSqlQueryIns1    -- line 73
  | bind1              -- line 95
  | executeQueryIns1   -- line 96
  | statementRelease3  -- line 101 (status ignored)
  | statementNew4      -- line 105
  | setSqlQueryIns2    -- line 106
  | bind2              -- line 127 (status inspected but non-fatal)
  | executeQueryIns2   -- line 132 (status inspected but non-fatal)
  | statementRelease4  -- line 142 (status ignored)
  | connectionRelease  -- line 146 (status ignored)
  | databaseRelease    -- line 147 (status ignored)
deriving DecidableEq, Repr

/-- The SQL text assigned by each AdbcStatementSetSqlQuery call site. -/
def queryOf : CallSite → Option String
  | CallSite.setSqlQueryDrop => some dropQuery
  | CallSite.setSqlQueryCreate => some createQuery
  | CallSite.setSqlQueryIns1 => some insertQuery
  | CallSite.setSqlQueryIns2 => some insertQuery
  | _ => none

/-- What one driver call does: the AdbcStatusCode it returns (0 = OK) and
the message it writes into the AdbcError out-parameter (none = leaves the
record untouched). -/
structure CallResult where
  code : Nat
  msg : Option String

/-- A driver oracle: the behaviour of the driver at each call site of the
single run. -/
def Oracle : Type := CallSite → CallResult

/-- Observable events of a run. The message payload of a print of
error.message is an Option String: none models printing the NULL pointer
the zero-initialized record starts with. -/
inductive Event where
  | callEv (c : CallSite) (arg : Option Batch) (code : Nat)
  | printOut (s : String)
  | printOutMsg (pre : String) (m : Option String)
  | printErrMsg (m : Option String)
  | arrowBuild (p : Nat) (b : Batch)
  | arrowRelease (p : Nat)
deriving DecidableEq

/-- Program state threaded through the straight-line run: the event trace so
far and the current contents of error.message (none = NULL pointer, the
zero-initialized state of line 38). -/
structure St where
  trace : List Event
  errMsg : Option String

/-- Result of a whole run: the trace and the process exit code. -/
structure RunResult where
  trace : List Event
  exitCode : Nat
deriving DecidableEq

/-- New message contents of the error record after a call that wrote new
(some m) or left the record untouched (none). -/
def overwrite (new old : Option String) : Option String :=
  match new with
  | some m => some m
  | none => old

/-- Append an event to the trace. -/
def emit (s : St) (e : Event) : St :=
  { s with trace := s.trace ++ [e] }

/-- Perform one driver call: record the call event with its argument and the
status code the oracle returns, and update the error record. -/
def step (o : Oracle) (c : CallSite) (arg : Option Batch) (s : St) : St :=
  { trace := s.trace ++ [Event.callEv c arg (o c).code]
    errMsg := overwrite (o c).msg s.errMsg }

/-- The fatal exit of the CHECK_ADBC macro (lines 28-35): print
"Error: %s\n" with the current error.message to stderr and return 1. -/
def fatal (s : St) : RunResult :=
  ⟨(emit s (Event.printErrMsg s.errMsg)).trace, 1⟩

/-- One statement of main, as the interpreter below executes it:
a printf to stdout, a CHECK_ADBC-guarded driver call (with the batch it
binds, when it is a bind), a driver call whose status is ignored, a
nanoarrow batch build, the release of a schema/array pair, or the
negative-path test block of lines 127-138. -/
inductive Instr where
  | print (s : String)
  | call (c : CallSite) (arg : Option Batch)
  | callIgn (c : CallSite)
  | build (p : Nat) (b : Batch)
  | releasePair (p : Nat)
  | negBlock

def sInitializing : String := "Initializing PostgreSQL driver...\n"
def sCreating : String := "Creating test table...\n"
def sTest1 : String := "\nTest 1: Insert with non-NULL values...\n"
def sPosSuccess : String := "✓ Success: Non-NULL values inserted\n"
def sTest2 : String := "\nTest 2: Insert with NULL value...\n"
def sFailPre : String := "✗ Failed: "
def sBugLine : String := "   This is the bug - can\x27t map Arrow type \x27na\x27 to Postgres type\n"
def sNegSuccess : String := "✓ Success: NULL value inserted\n"
def sCleaning : String := "\nCleaning up...\n"

/-- The 60-character separator line of lines 149 and 153. -/
def sepLine : String := String.mk (List.replicate 60 '=')

def sSepNL : String := "\n" ++ sepLine ++ "\n"
def sSummaryHdr : String := "SUMMARY:\n"
def sSummary1 : String := "Non-NULL parameters work correctly\n"
def sSummary2 : String := "NULL parameters fail with Arrow type \x27na\x27 mapping error\n"
def sSep : String := sepLine ++ "\n"

/-- Lines 127-138: the negative-path bind, the conditional execute, and
the outcome prints. The bind status is inspected but never fatal. -/
def negBlockSt (o : Oracle) (s : St) : St :=
  let s := step o CallSite.bind2 (some negativeBatch) s           -- line 127
  if (o CallSite.bind2).code = 0 then
    let s := step o CallSite.executeQueryIns2 none s              -- line 132
    if (o CallSite.executeQueryIns2).code = 0 then
      emit s (Event.printOut sNegSuccess)                         -- line 134
    else
      emit s (Event.printOutMsg sFailPre s.errMsg)                -- line 136
  else
    emit (emit s (Event.printOutMsg sFailPre s.errMsg))           -- line 129
      (Event.printOut sBugLine)                                   -- line 130

/-- Effect of one instruction on the state, ignoring the abort of a failed
checked call (the interpreter below handles the abort). -/
def stepInstr (o : Oracle) (i : Instr) (s : St) : St :=
  match i with
  | Instr.print str => emit s (Event.printOut str)
  | Instr.call c arg => step o c arg s
  | Instr.callIgn c => step o c none s
  | Instr.build p b => emit s (Event.arrowBuild p b)
  | Instr.releasePair p => emit s (Event.arrowRelease p)
  | Instr.negBlock => negBlockSt o s

/-- The interpreter: execute the instructions in order; a checked call with
a non-OK status takes the CHECK_ADBC fatal exit (stderr print, exit 1);
running off the end is the return 0 of line 155. -/
def execProg (o : Oracle) : List Instr → St → RunResult
  | [], s => ⟨s.trace, 0⟩
  | Instr.call c arg :: rest, s =>
      let s2 := step o c arg s
      if (o c).code = 0 then execProg o rest s2 else fatal s2
  | i :: rest, s => execProg o rest (stepInstr o i s)

/-- The body of main (lines 37-156) as the instruction sequence the source
executes, one instruction per source statement. -/
def mainProg : List Instr :=
  [Instr.print sInitializing,                         -- line 44
   Instr.call CallSite.databaseNew none,              -- line 45
   Instr.call CallSite.dbSetOptionDriver none,        -- line 46
   Instr.call CallSite.dbSetOptionUri none,           -- line 47
   Instr.call CallSite.databaseInit none,             -- line 48
   Instr.call CallSite.connectionNew none,            -- line 51
   Instr.call CallSite.connectionInit none,           -- line 52
   Instr.print sCreating,                             -- line 55
   Instr.call CallSite.statementNew1 none,            -- line 56
   Instr.call CallSite.setSqlQueryDrop none,          -- line 57
   Instr.call CallSite.executeQueryDrop none,         -- line 60
   Instr.callIgn CallSite.statementRelease1,          -- line 61
   Instr.call CallSite.statementNew2 none,            -- line 63
   Instr.call CallSite.setSqlQueryCreate none,        -- line 64
   Instr.call CallSite.executeQueryCreate none,       -- line 67
   Instr.callIgn CallSite.statementRelease2,          -- line 68
   Instr.print sTest1,                                -- line 71
   Instr.call CallSite.statementNew3 none,            -- line 72
   Instr.call CallSite.setSqlQueryIns1 none,          -- line 73
   Instr.build 1 positiveBatch,                       -- lines 78-93
   Instr.call CallSite.bind1 (some positiveBatch),    -- line 95
   Instr.call CallSite.executeQueryIns1 none,         -- line 96
   Instr.print sPosSuccess,                           -- line 97
   Instr.releasePair 1,                               -- lines 99-100
   Instr.callIgn CallSite.statementRelease3,          -- line 101
   Instr.print sTest2,                                -- line 104
   Instr.call CallSite.statementNew4 none,            -- line 105
   Instr.call CallSite.setSqlQueryIns2 none,          -- line 106
   Instr.build 2 negativeBatch,                       -- lines 111-125
   Instr.negBlock,                                    -- lines 127-138
   Instr.releasePair 2,                               -- lines 140-141
   Instr.callIgn CallSite.statementRelease4,          -- line 142
   Instr.print sCleaning,                             -- line 145
   Instr.callIgn CallSite.connectionRelease,          -- line 146
   Instr.callIgn CallSite.databaseRelease,            -- line 147
   Instr.print sSepNL,                                -- line 149
   Instr.print sSummaryHdr,                           -- line 150
   Instr.print sSummary1,                             -- line 151
   Instr.print sSummary2,                             -- line 152
   Instr.print sSep]                                  -- line 153

/-- The whole of main (lines 37-156), as a function of the driver oracle:
start from the zero-initialized error record of line 38 and execute the
statement sequence. -/
def run (o : Oracle) : RunResult :=
  execProg o mainProg ⟨[], none⟩

/-! Site lists and trace predicates. -/

/-- The CHECK_ADBC-guarded (status-checked) call sites, in program order. -/
def guardedSites : List CallSite :=
  [CallSite.databaseNew, CallSite.dbSetOptionDriver, CallSite.dbSetOptionUri,
   CallSite.databaseInit, CallSite.connectionNew, CallSite.connectionInit,
   CallSite.statementNew1, CallSite.setSqlQueryDrop, CallSite.executeQueryDrop,
   CallSite.statementNew2, CallSite.setSqlQueryCreate, CallSite.executeQueryCreate,
   CallSite.statementNew3, CallSite.setSqlQueryIns1, CallSite.bind1,
   CallSite.executeQueryIns1, CallSite.statementNew4, CallSite.setSqlQueryIns2]

/-- The checked sites of the setup, schema and positive-path stages (the
calls guarded before Test 2 begins). -/
def checkedThroughPositive : List CallSite := guardedSites.take 16

/-- The checked sites up to and including the positive-path SetSqlQuery
(everything guarded before the positive bind). -/
def checkedBeforeBind1 : List CallSite := guardedSites.take 14

/-- The checked sites of database setup (lines 45-48). -/
def checkedDbSetup : List CallSite := guardedSites.take 4

/-- The checked sites of database plus connection setup (lines 45-52). -/
def checkedSetup : List CallSite := guardedSites.take 6

/-- The checked sites through the schema stage (lines 45-67). -/
def checkedThroughSchema : List CallSite := guardedSites.take 12

/-- All call sites the oracle answers, in the order main reaches them. -/
def programOrder : List CallSite :=
  [CallSite.databaseNew, CallSite.dbSetOptionDriver, CallSite.dbSetOptionUri,
   CallSite.databaseInit, CallSite.connectionNew, CallSite.connectionInit,
   CallSite.statementNew1, CallSite.setSqlQueryDrop, CallSite.executeQueryDrop,
   CallSite.statementRelease1, CallSite.statementNew2, CallSite.setSqlQueryCreate,
   CallSite.executeQueryCreate, CallSite.statementRelease2, CallSite.statementNew3,
   CallSite.setSqlQueryIns1, CallSite.bind1, CallSite.executeQueryIns1,
   CallSite.statementRelease3, CallSite.statementNew4, CallSite.setSqlQueryIns2,
   CallSite.bind2, CallSite.executeQueryIns2, CallSite.statementRelease4,
   CallSite.connectionRelease, CallSite.databaseRelease]

/-- All statuses of the given sites are OK under the oracle. -/
def allOn (o : Oracle) (l : List CallSite) : Bool :=
  l.all fun c => (o c).code == 0

/-- Every CHECK_ADBC-guarded call returns OK: the run suffers no fatal
early return. -/
def allOkB (o : Oracle) : Bool := allOn o guardedSites

/-- The sequence of driver call sites of a trace, in order. -/
def callSeq (tr : List Event) : List CallSite :=
  tr.filterMap fun e =>
    match e with
    | Event.callEv c _ _ => some c
    | _ => none

/-- The given call site occurs in the trace (with any status code). -/
def occursB (tr : List Event) (c : CallSite) : Bool :=
  (callSeq tr).elem c

/-- The given call site occurs in the trace with an OK status code. -/
def occursOkB (tr : List Event) (c : CallSite) : Bool :=
  tr.any fun e =>
    match e with
    | Event.callEv c2 _ k => c2 == c && k == 0
    | _ => false

/-- Some site of the list occurs in the trace. -/
def occursAnyB (tr : List Event) (l : List CallSite) : Bool :=
  l.any fun c => occursB tr c


/-- The stage a call site belongs to, numbered as the claims list them:
0 database setup, 1 connection setup, 2 schema preparation (the two DDL
statements), 3 positive-path insert, 4 negative-path insert, 5 final
cleanup. -/
def stageOf : CallSite → Nat
  | CallSite.databaseNew => 0
  | CallSite.dbSetOptionDriver => 0
  | CallSite.dbSetOptionUri => 0
  | CallSite.databaseInit => 0
  | CallSite.connectionNew => 1
  | CallSite.connectionInit => 1
  | CallSite.statementNew1 => 2
  | CallSite.setSqlQueryDrop => 2
  | CallSite.executeQueryDrop => 2
  | CallSite.statementRelease1 => 2
  | CallSite.statementNew2 => 2
  | CallSite.setSqlQueryCreate => 2
  | CallSite.executeQueryCreate => 2
  | CallSite.statementRelease2 => 2
  | CallSite.statementNew3 => 3
  | CallSite.setSqlQueryIns1 => 3
  | CallSite.bind1 => 3
  | CallSite.executeQueryIns1 => 3
  | CallSite.statementRelease3 => 3
  | CallSite.statementNew4 => 4
  | CallSite.setSqlQueryIns2 => 4
  | CallSite.bind2 => 4
  | CallSite.executeQueryIns2 => 4
  | CallSite.statementRelease4 => 4
  | CallSite.connectionRelease => 5
  | CallSite.databaseRelease => 5

/-- The sites of the five stages the claims enumerate (final cleanup
excluded): database setup through the negative-path insert. -/
def stagedSites : List CallSite := programOrder.take 24

/-- All sites of connection setup (stage 1). -/
def connSetupSites : List CallSite := [CallSite.connectionNew, CallSite.connectionInit]

/-- All sites of the schema stage (stage 2), the releases included. -/
def schemaSites : List CallSite :=
  [CallSite.statementNew1, CallSite.setSqlQueryDrop, CallSite.executeQueryDrop,
   CallSite.statementRelease1, CallSite.statementNew2, CallSite.setSqlQueryCreate,
   CallSite.executeQueryCreate, CallSite.statementRelease2]

/-- All sites of the positive-path stage (stage 3), the release included. -/
def positiveSites : List CallSite :=
  [CallSite.statementNew3, CallSite.setSqlQueryIns1, CallSite.bind1,
   CallSite.executeQueryIns1, CallSite.statementRelease3]

/-- All sites of the negative-path stage (stage 4), the release included. -/
def negativeSites : List CallSite :=
  [CallSite.statementNew4, CallSite.setSqlQueryIns2, CallSite.bind2,
   CallSite.executeQueryIns2, CallSite.statementRelease4]

/-- Table-creation and insert call sites: everything from the first
AdbcStatementNew on (used by the unreachable-store scenario). -/
def tableOrInsertSites : List CallSite :=
  schemaSites ++ positiveSites ++ negativeSites

/-- Literal reading of the stage-dependency sentence: whenever a call of
some stage occurs in the trace, every call site of every earlier stage
(cleanup excluded) occurs with an OK status. -/
def stageGuardB (tr : List Event) : Bool :=
  stagedSites.all fun c =>
    !(occursB tr c) ||
      stagedSites.all fun c2 =>
        !(Nat.blt (stageOf c2) (stageOf c)) || occursOkB tr c2

/-- The owned resources of the run: the database handle, the connection
handle, the four statement handles (in order of creation), and the two
schema/array pairs. -/
inductive Res where
  | db
  | conn
  | stmt1
  | stmt2
  | stmt3
  | stmt4
  | pair1
  | pair2
deriving DecidableEq, Repr

/-- The resource was successfully constructed during the run: its handle
constructor returned OK, or (for a schema/array pair) its nanoarrow build
completed. -/
def constructedB (tr : List Event) : Res → Bool
  | Res.db => occursOkB tr CallSite.databaseNew
  | Res.conn => occursOkB tr CallSite.connectionNew
  | Res.stmt1 => occursOkB tr CallSite.statementNew1
  | Res.stmt2 => occursOkB tr CallSite.statementNew2
  | Res.stmt3 => occursOkB tr CallSite.statementNew3
  | Res.stmt4 => occursOkB tr CallSite.statementNew4
  | Res.pair1 => tr.any fun e =>
      match e with
      | Event.arrowBuild p _ => p == 1
      | _ => false
  | Res.pair2 => tr.any fun e =>
      match e with
      | Event.arrowBuild p _ => p == 2
      | _ => false

/-- How many times the release call of the resource was performed (the
status the release itself returns does not matter: the call happened). -/
def releaseCount (tr : List Event) : Res → Nat
  | Res.db => tr.countP fun e =>
      match e with
      | Event.callEv c _ _ => c == CallSite.databaseRelease
      | _ => false
  | Res.conn => tr.countP fun e =>
      match e with
      | Event.callEv c _ _ => c == CallSite.connectionRelease
      | _ => false
  | Res.stmt1 => tr.countP fun e =>
      match e with
      | Event.callEv c _ _ => c == CallSite.statementRelease1
      | _ => false
  | Res.stmt2 => tr.countP fun e =>
      match e with
      | Event.callEv c _ _ => c == CallSite.statementRelease2
      | _ => false
  | Res.stmt3 => tr.countP fun e =>
      match e with
      | Event.callEv c _ _ => c == CallSite.statementRelease3
      | _ => false
  | Res.stmt4 => tr.countP fun e =>
      match e with
      | Event.callEv c _ _ => c == CallSite.statementRelease4
      | _ => false
  | Res.pair1 => tr.countP fun e =>
      match e with
      | Event.arrowRelease p => p == 1
      | _ => false
  | Res.pair2 => tr.countP fun e =>
      match e with
      | Event.arrowRelease p => p == 2
      | _ => false

/-- The first list starts with the second one. -/
def startsWithL : List Char → List Char → Bool
  | _, [] => true
  | [], _ :: _ => false
  | a :: s, b :: t => a == b && startsWithL s t

/-- The second list occurs contiguously inside the first one. -/
def hasInfixL : List Char → List Char → Bool
  | [], pat => startsWithL [] pat
  | a :: rest, pat => startsWithL (a :: rest) pat || hasInfixL rest pat

/-- The message text is shown on standard output: some stdout print
contains it, either as a substring of a fixed line or as the payload of a
printf of error.message. -/
def stdoutShows (tr : List Event) (m : String) : Bool :=
  tr.any fun e =>
    match e with
    | Event.printOut s => hasInfixL s.data m.data
    | Event.printOutMsg _ v => v == some m
    | _ => false

/-! Concrete driver oracles used as witnesses and counterexamples. -/

/-- A driver that answers every call with OK and writes no message. -/
def allOkOracle : Oracle := fun _ => ⟨0, none⟩

/-- A driver exhibiting the documented defect: every call is OK except the
negative-path bind, which fails and reports the type-mapping error. -/
def buggyDriverOracle : Oracle := fun c =>
  match c with
  | CallSite.bind2 => ⟨1, some "Can\x27t map Arrow type \x27na\x27 to Postgres type"⟩
  | _ => ⟨0, none⟩

/-- A run whose second driver call (AdbcDatabaseSetOption at line 46) fails
after the database handle was successfully constructed at line 45. -/
def optionFailOracle : Oracle := fun c =>
  match c with
  | CallSite.dbSetOptionDriver => ⟨1, some "unknown option"⟩
  | _ => ⟨0, none⟩

/-- A run where the first statement release (line 61) returns a non-OK
status; every other call is OK. -/
def releaseFailOracle : Oracle := fun c =>
  match c with
  | CallSite.statementRelease1 => ⟨1, some "release failed"⟩
  | _ => ⟨0, none⟩

/-- A run where the negative-path AdbcStatementNew (line 105) fails; every
call before it is OK. -/
def negNewFailOracle : Oracle := fun c =>
  match c with
  | CallSite.statementNew4 => ⟨1, some "out of memory"⟩
  | _ => ⟨0, none⟩

/-- A run against an unreachable store: AdbcConnectionInit (line 52) fails
with a connection error; the calls before it are OK. -/
def connFailOracle : Oracle := fun c =>
  match c with
  | CallSite.connectionInit => ⟨1, some "connection refused"⟩
  | _ => ⟨0, none⟩

/-- A run whose very first driver call fails without populating the error
record. -/
def firstFailOracle : Oracle := fun c =>
  match c with
  | CallSite.databaseNew => ⟨1, none⟩
  | _ => ⟨0, none⟩
/-- A program fragment suffers no fatal abort: every checked call in it has
an OK status. -/
def progOkB (o : Oracle) (p : List Instr) : Bool :=
  p.all fun i =>
    match i with
    | Instr.call c _ => (o c).code == 0
    | _ => true

/-- The driver call sites a program fragment can perform, in order. -/
def sitesOf : List Instr → List CallSite
  | [] => []
  | i :: rest =>
    (match i with
     | Instr.call c _ => [c]
     | Instr.callIgn c => [c]
     | Instr.negBlock => [CallSite.bind2, CallSite.executeQueryIns2]
     | _ => []) ++ sitesOf rest

/-- The state after a fragment that suffers no abort. -/
def okState (o : Oracle) : List Instr → St → St
  | [], s => s
  | i :: rest, s => okState o rest (stepInstr o i s)

theorem step_extends (o : Oracle) (c : CallSite) (arg : Option Batch) (s : St) :
    s.trace <+: (step o c arg s).trace :=
  ⟨_, rfl⟩

theorem emit_extends (s : St) (e : Event) : s.trace <+: (emit s e).trace :=
  ⟨_, rfl⟩

theorem negBlockSt_extends (o : Oracle) (s : St) : s.trace <+: (negBlockSt o s).trace := by
  unfold negBlockSt
  by_cases hb : (o CallSite.bind2).code = 0 <;>
    by_cases he : (o CallSite.executeQueryIns2).code = 0 <;>
    simp only [hb, he, if_true, if_false, if_pos, if_neg, not_false_iff]
  · exact (step_extends o CallSite.bind2 (some negativeBatch) s).trans
      ((step_extends o CallSite.executeQueryIns2 none _).trans (emit_extends _ _))
  · exact (step_extends o CallSite.bind2 (some negativeBatch) s).trans
      ((step_extends o CallSite.executeQueryIns2 none _).trans (emit_extends _ _))
  · exact (step_extends o CallSite.bind2 (some negativeBatch) s).trans
      ((emit_extends _ _).trans (emit_extends _ _))
  · exact (step_extends o CallSite.bind2 (some negativeBatch) s).trans
      ((emit_extends _ _).trans (emit_extends _ _))

theorem stepInstr_extends (o : Oracle) (i : Instr) (s : St) :
    s.trace <+: (stepInstr o i s).trace := by
  cases i with
  | print str => exact emit_extends _ _
  | call c arg => exact step_extends _ _ _ _
  | callIgn c => exact step_extends _ _ _ _
  | build pp b => exact emit_extends _ _
  | releasePair pp => exact emit_extends _ _
  | negBlock => exact negBlockSt_extends _ _

theorem execProg_extends (o : Oracle) (p : List Instr) (s : St) :
    s.trace <+: (execProg o p s).trace := by
  induction p generalizing s with
  | nil => simp [execProg]
  | cons i rest ih =>
    cases i with
    | call c arg =>
      by_cases hc : (o c).code = 0
      · rw [execProg]
        simp only [hc, if_true]
        exact (step_extends o c arg s).trans (ih _)
      · rw [execProg]
        simp only [hc, if_false]
        exact (step_extends o c arg s).trans (emit_extends _ _)
    | print str => exact (stepInstr_extends o (Instr.print str) s).trans (ih _)
    | callIgn c => exact (stepInstr_extends o (Instr.callIgn c) s).trans (ih _)
    | build pp b => exact (stepInstr_extends o (Instr.build pp b) s).trans (ih _)
    | releasePair pp => exact (stepInstr_extends o (Instr.releasePair pp) s).trans (ih _)
    | negBlock => exact (stepInstr_extends o Instr.negBlock s).trans (ih _)

theorem mem_execProg (o : Oracle) (p : List Instr) (s : St) (e : Event)
    (h : e ∈ s.trace) : e ∈ (execProg o p s).trace :=
  (execProg_extends o p s).subset h

theorem execProg_append (o : Oracle) (p1 p2 : List Instr) (s : St) :
    execProg o (p1 ++ p2) s =
      if progOkB o p1 = true then execProg o p2 (okState o p1 s)
      else execProg o p1 s := by
  induction p1 generalizing s with
  | nil => simp [progOkB, okState]
  | cons i rest ih =>
    cases i with
    | call c arg =>
      by_cases hc : (o c).code = 0
      · rw [List.cons_append]
        simp only [execProg, hc, if_true, progOkB, List.all_cons, beq_iff_eq, Bool.true_and]
        rw [ih]
        rfl
      · rw [List.cons_append]
        simp [execProg, hc, progOkB, List.all_cons]
    | print str =>
      rw [List.cons_append]
      simp only [execProg, progOkB, List.all_cons, Bool.true_and]
      rw [ih]
      rfl
    | callIgn c =>
      rw [List.cons_append]
      simp only [execProg, progOkB, List.all_cons, Bool.true_and]
      rw [ih]
      rfl
    | build pp b =>
      rw [List.cons_append]
      simp only [execProg, progOkB, List.all_cons, Bool.true_and]
      rw [ih]
      rfl
    | releasePair pp =>
      rw [List.cons_append]
      simp only [execProg, progOkB, List.all_cons, Bool.true_and]
      rw [ih]
      rfl
    | negBlock =>
      rw [List.cons_append]
      simp only [execProg, progOkB, List.all_cons, Bool.true_and]
      rw [ih]
      rfl

theorem execProg_exit (o : Oracle) (p : List Instr) (s : St) :
    (execProg o p s).exitCode = if progOkB o p = true then 0 else 1 := by
  induction p generalizing s with
  | nil => simp [execProg, progOkB]
  | cons i rest ih =>
    cases i with
    | call c arg =>
      by_cases hc : (o c).code = 0
      · simp only [execProg, hc, if_true, progOkB, List.all_cons, beq_iff_eq, Bool.true_and]
        rw [ih]
        rfl
      · simp [execProg, hc, progOkB, List.all_cons, fatal]
    | print str =>
      simp only [execProg, progOkB, List.all_cons, Bool.true_and]
      rw [ih]
      rfl
    | callIgn c =>
      simp only [execProg, progOkB, List.all_cons, Bool.true_and]
      rw [ih]
      rfl
    | build pp b =>
      simp only [execProg, progOkB, List.all_cons, Bool.true_and]
      rw [ih]
      rfl
    | releasePair pp =>
      simp only [execProg, progOkB, List.all_cons, Bool.true_and]
      rw [ih]
      rfl
    | negBlock =>
      simp only [execProg, progOkB, List.all_cons, Bool.true_and]
      rw [ih]
      rfl

theorem execProg_fatal_last (o : Oracle) (p : List Instr) (s : St)
    (h : progOkB o p = false) :
    ∃ m, (execProg o p s).trace.getLast? = some (Event.printErrMsg m) := by
  induction p generalizing s with
  | nil => simp [progOkB] at h
  | cons i rest ih =>
    cases i with
    | call c arg =>
      by_cases hc : (o c).code = 0
      · have hr : progOkB o rest = false := by
          simpa [progOkB, List.all_cons, hc] using h
        simpa only [execProg, hc, if_true] using ih (step o c arg s) hr
      · refine ⟨(step o c arg s).errMsg, ?_⟩
        simp [execProg, hc, fatal, emit]
    | print str =>
      have hr : progOkB o rest = false := by simpa [progOkB, List.all_cons] using h
      simpa only [execProg] using ih (stepInstr o (Instr.print str) s) hr
    | callIgn c =>
      have hr : progOkB o rest = false := by simpa [progOkB, List.all_cons] using h
      simpa only [execProg] using ih (stepInstr o (Instr.callIgn c) s) hr
    | build pp b =>
      have hr : progOkB o rest = false := by simpa [progOkB, List.all_cons] using h
      simpa only [execProg] using ih (stepInstr o (Instr.build pp b) s) hr
    | releasePair pp =>
      have hr : progOkB o rest = false := by simpa [progOkB, List.all_cons] using h
      simpa only [execProg] using ih (stepInstr o (Instr.releasePair pp) s) hr
    | negBlock =>
      have hr : progOkB o rest = false := by simpa [progOkB, List.all_cons] using h
      simpa only [execProg] using ih (stepInstr o Instr.negBlock s) hr

theorem callSeq_append (l1 l2 : List Event) :
    callSeq (l1 ++ l2) = callSeq l1 ++ callSeq l2 := by
  simp [callSeq, List.filterMap_append]

theorem execProg_callSeq (o : Oracle) (p : List Instr) (s : St) :
    ∃ t, callSeq (execProg o p s).trace = callSeq s.trace ++ t ∧ List.Sublist t (sitesOf p) := by
  induction p generalizing s with
  | nil => exact ⟨[], by simp [execProg], List.nil_sublist _⟩
  | cons i rest ih =>
    cases i with
    | call c arg =>
      by_cases hc : (o c).code = 0
      · obtain ⟨t, ht, hsub⟩ := ih (step o c arg s)
        refine ⟨c :: t, ?_, ?_⟩
        · simp only [execProg, hc, if_true] at *
          rw [ht]
          simp [step, callSeq_append, callSeq]
        · exact List.Sublist.cons₂ c hsub
      · refine ⟨[c], ?_, ?_⟩
        · simp [execProg, hc, fatal, emit, step, callSeq_append, callSeq]
        · exact List.Sublist.cons₂ c (List.nil_sublist _)
    | print str =>
      obtain ⟨t, ht, hsub⟩ := ih (stepInstr o (Instr.print str) s)
      refine ⟨t, ?_, hsub⟩
      simp only [execProg] at *
      rw [ht]
      simp [stepInstr, emit, callSeq_append, callSeq]
    | callIgn c =>
      obtain ⟨t, ht, hsub⟩ := ih (stepInstr o (Instr.callIgn c) s)
      refine ⟨c :: t, ?_, ?_⟩
      · simp only [execProg] at *
        rw [ht]
        simp [stepInstr, step, callSeq_append, callSeq]
      · exact List.Sublist.cons₂ c hsub
    | build pp b =>
      obtain ⟨t, ht, hsub⟩ := ih (stepInstr o (Instr.build pp b) s)
      refine ⟨t, ?_, hsub⟩
      simp only [execProg] at *
      rw [ht]
      simp [stepInstr, emit, callSeq_append, callSeq]
    | releasePair pp =>
      obtain ⟨t, ht, hsub⟩ := ih (stepInstr o (Instr.releasePair pp) s)
      refine ⟨t, ?_, hsub⟩
      simp only [execProg] at *
      rw [ht]
      simp [stepInstr, emit, callSeq_append, callSeq]
    | negBlock =>
      obtain ⟨t, ht, hsub⟩ := ih (stepInstr o Instr.negBlock s)
      by_cases hb : (o CallSite.bind2).code = 0
      · by_cases he : (o CallSite.executeQueryIns2).code = 0
        · refine ⟨CallSite.bind2 :: CallSite.executeQueryIns2 :: t, ?_, ?_⟩
          · simp only [execProg] at *
            rw [ht]
            simp [stepInstr, negBlockSt, hb, he, step, emit, callSeq_append, callSeq]
          · exact List.Sublist.cons₂ _ (List.Sublist.cons₂ _ hsub)
        · refine ⟨CallSite.bind2 :: CallSite.executeQueryIns2 :: t, ?_, ?_⟩
          · simp only [execProg] at *
            rw [ht]
            simp [stepInstr, negBlockSt, hb, he, step, emit, callSeq_append, callSeq]
          · exact List.Sublist.cons₂ _ (List.Sublist.cons₂ _ hsub)
      · refine ⟨CallSite.bind2 :: t, ?_, ?_⟩
        · simp only [execProg] at *
          rw [ht]
          simp [stepInstr, negBlockSt, hb, step, emit, callSeq_append, callSeq]
        · exact List.Sublist.cons₂ _ (List.Sublist.cons _ hsub)

/-- Every checked call of the whole program is OK, iff allOkB: the two
site orders agree. -/
theorem progOk_main (o : Oracle) : progOkB o mainProg = allOkB o := by
  simp [progOkB, allOkB, allOn, mainProg, guardedSites]

/-- All driver call sites of the setup, schema-definition and positive-path
stages, the intermediate statement releases included (lines 45-101). -/
def setupSchemaPositiveSites : List CallSite := programOrder.take 19

/-- Claim C2 as stated: a non-OK status from any driver call of the setup,
schema or positive-path stages gives a printed error message and exit code
1, and if all those calls return OK the exit code is 0 regardless of the
negative path. -/
def claimC2 : Prop :=
  ∀ o : Oracle,
    ((∃ c ∈ setupSchemaPositiveSites, (o c).code ≠ 0) →
      (run o).exitCode = 1 ∧
      ∃ m, (run o).trace.getLast? = some (Event.printErrMsg m)) ∧
    ((∀ c ∈ setupSchemaPositiveSites, (o c).code = 0) → (run o).exitCode = 0)

/-- C2, counterexample: a run where every setup/schema/positive-path driver
call returns OK but the negative-path AdbcStatementNew of line 105 fails is
also CHECK_ADBC-guarded, so the process exits 1, not 0. -/
theorem claim2_counterexample : ¬ claimC2 := fun h =>
  absurd ((h negNewFailOracle).2 (by decide)) (by decide)

/-- C2, amended: the fatal set is the CHECK_ADBC-guarded calls, which also
include the negative-path statement creation and query assignment of lines
105-108 and exclude the ignored release statuses: the exit code is 0 iff
every guarded call returns OK, and on any fatal exit the last event is the
stderr print of the error message, so no further driver calls happen at
all. -/
theorem claim2_fatal_on_checked (o : Oracle) :
    ((run o).exitCode = if allOkB o = true then 0 else 1) ∧
    (allOkB o = false →
      ∃ m, (run o).trace.getLast? = some (Event.printErrMsg m)) := by
  constructor
  · rw [run, execProg_exit, progOk_main]
  · intro h
    rw [run]
    apply execProg_fatal_last
    rw [progOk_main]
    exact h

/-- C2, witness: the counterexample run itself exercises the amended claim:
its guarded-call set is not all-OK and its last event is the stderr error
print. -/
theorem claim2_witness :
    allOkB negNewFailOracle = false ∧
    ∃ m, (run negNewFailOracle).trace.getLast? = some (Event.printErrMsg m) :=
  ⟨by decide, (claim2_fatal_on_checked negNewFailOracle).2 (by decide)⟩

/-- Unpacking allOkB: the individual OK statuses of the 18 guarded calls. -/
theorem allOkB_unfold (o : Oracle) (h : allOkB o = true) :
    (o CallSite.databaseNew).code = 0 ∧ (o CallSite.dbSetOptionDriver).code = 0 ∧
    (o CallSite.dbSetOptionUri).code = 0 ∧ (o CallSite.databaseInit).code = 0 ∧
    (o CallSite.connectionNew).code = 0 ∧ (o CallSite.connectionInit).code = 0 ∧
    (o CallSite.statementNew1).code = 0 ∧ (o CallSite.setSqlQueryDrop).code = 0 ∧
    (o CallSite.executeQueryDrop).code = 0 ∧ (o CallSite.statementNew2).code = 0 ∧
    (o CallSite.setSqlQueryCreate).code = 0 ∧ (o CallSite.executeQueryCreate).code = 0 ∧
    (o CallSite.statementNew3).code = 0 ∧ (o CallSite.setSqlQueryIns1).code = 0 ∧
    (o CallSite.bind1).code = 0 ∧ (o CallSite.executeQueryIns1).code = 0 ∧
    (o CallSite.statementNew4).code = 0 ∧ (o CallSite.setSqlQueryIns2).code = 0 := by
  simpa [allOkB, allOn, guardedSites] using h

/-- A fragment with all checked calls OK runs to completion: exit 0 and the
trace of the abort-free state. -/
theorem execProg_ok (o : Oracle) (p : List Instr) (s : St) (h : progOkB o p = true) :
    execProg o p s = ⟨(okState o p s).trace, 0⟩ := by
  induction p generalizing s with
  | nil => simp [execProg, okState]
  | cons i rest ih =>
    cases i with
    | call c arg =>
      have hp : (o c).code = 0 ∧ progOkB o rest = true := by
        simpa [progOkB, List.all_cons] using h
      simp only [execProg, hp.1, if_true, okState, stepInstr]
      exact ih _ hp.2
    | print str =>
      have hr : progOkB o rest = true := by simpa [progOkB, List.all_cons] using h
      simp only [execProg, okState, stepInstr]
      exact ih _ hr
    | callIgn c =>
      have hr : progOkB o rest = true := by simpa [progOkB, List.all_cons] using h
      simp only [execProg, okState, stepInstr]
      exact ih _ hr
    | build pp b =>
      have hr : progOkB o rest = true := by simpa [progOkB, List.all_cons] using h
      simp only [execProg, okState, stepInstr]
      exact ih _ hr
    | releasePair pp =>
      have hr : progOkB o rest = true := by simpa [progOkB, List.all_cons] using h
      simp only [execProg, okState, stepInstr]
      exact ih _ hr
    | negBlock =>
      have hr : progOkB o rest = true := by simpa [progOkB, List.all_cons] using h
      simp only [execProg, okState, stepInstr]
      exact ih _ hr

/-- A run with every guarded call OK completes: exit 0 and the abort-free
trace. -/
theorem run_allOk (o : Oracle) (h : allOkB o = true) :
    run o = ⟨(okState o mainProg ⟨[], none⟩).trace, 0⟩ := by
  rw [run]
  apply execProg_ok
  rw [progOk_main]
  exact h

/-- Claim C1 as stated: on every run and every exit path, each resource
successfully constructed before the exit is released exactly once. -/
def claimC1 : Prop :=
  ∀ (o : Oracle) (r : Res),
    constructedB (run o).trace r = true → releaseCount (run o).trace r = 1

/-- C1, counterexample: when AdbcDatabaseSetOption (line 46) fails, the
CHECK_ADBC macro returns 1 immediately, so the database handle constructed
at line 45 is never released: zero releases on that exit path. -/
theorem claim1_counterexample : ¬ claimC1 := fun h =>
  absurd (h optionFailOracle Res.db (by decide)) (by decide)

set_option maxHeartbeats 2000000 in
/-- C1, amended: on runs where every CHECK_ADBC-guarded call returns OK
(full completion, the expected negative-path failure included), every
handle, schema and batch is constructed and released exactly once; on a
fatal early-return exit the macro releases nothing, so handles constructed
before the failure leak. -/
theorem claim1_release_on_completion (o : Oracle) (h : allOkB o = true) :
    ∀ r : Res, constructedB (run o).trace r = true ∧ releaseCount (run o).trace r = 1 := by
  obtain ⟨h1, h2, h3, h4, h5, h6, h7, h8, h9, h10, h11, h12, h13, h14, h15, h16, h17, h18⟩ :=
    allOkB_unfold o h
  rw [run_allOk o h]
  by_cases hb : (o CallSite.bind2).code = 0 <;>
    by_cases he : (o CallSite.executeQueryIns2).code = 0 <;>
    simp [mainProg, okState, stepInstr, step, emit, negBlockSt, hb, he] <;>
    intro r <;> cases r <;>
    simp [constructedB, releaseCount, occursOkB, callSeq, h1, h5, h7, h10, h13, h17,
      List.countP_cons]

/-- C1, witness: the all-OK driver run constructs and releases every
resource exactly once. -/
theorem claim1_witness :
    allOkB allOkOracle = true ∧
    ∀ r : Res, constructedB (run allOkOracle).trace r = true ∧
      releaseCount (run allOkOracle).trace r = 1 :=
  ⟨by decide, claim1_release_on_completion allOkOracle (by decide)⟩

/-- Some failure report (a stdout printf of error.message) was printed. -/
def printedFailB (tr : List Event) : Bool :=
  tr.any fun e =>
    match e with
    | Event.printOutMsg _ _ => true
    | _ => false

set_option maxHeartbeats 2000000 in
/-- C3: a run that reaches the negative-path insert observes exactly one of
the three outcomes (bind fails, bind OK and execute fails, both OK), prints
the matching report (the failure reports carry the message the failing call
wrote into the error record), and in all three cases proceeds to the final
releases and the normal exit 0. -/
theorem claim3_negative_path_outcomes (o : Oracle) (h : allOkB o = true) :
    ((o CallSite.bind2).code ≠ 0 ∨
      ((o CallSite.bind2).code = 0 ∧ (o CallSite.executeQueryIns2).code ≠ 0) ∨
      ((o CallSite.bind2).code = 0 ∧ (o CallSite.executeQueryIns2).code = 0)) ∧
    ((o CallSite.bind2).code ≠ 0 →
      printedFailB (run o).trace = true ∧
      Event.printOut sBugLine ∈ (run o).trace ∧
      Event.printOut sNegSuccess ∉ (run o).trace ∧
      (∀ m, (o CallSite.bind2).msg = some m →
        Event.printOutMsg sFailPre (some m) ∈ (run o).trace)) ∧
    ((o CallSite.bind2).code = 0 → (o CallSite.executeQueryIns2).code ≠ 0 →
      printedFailB (run o).trace = true ∧
      Event.printOut sNegSuccess ∉ (run o).trace ∧
      (∀ m, (o CallSite.executeQueryIns2).msg = some m →
        Event.printOutMsg sFailPre (some m) ∈ (run o).trace)) ∧
    ((o CallSite.bind2).code = 0 → (o CallSite.executeQueryIns2).code = 0 →
      Event.printOut sNegSuccess ∈ (run o).trace ∧
      printedFailB (run o).trace = false) ∧
    (run o).exitCode = 0 ∧
    occursB (run o).trace CallSite.statementRelease4 = true ∧
    occursB (run o).trace CallSite.connectionRelease = true ∧
    occursB (run o).trace CallSite.databaseRelease = true := by
  constructor
  · tauto
  rw [run_allOk o h]
  have hne1 : ¬ (("✓ Success: NULL value inserted\n" : String) = sSepNL) := by decide
  have hne2 : ¬ (("✓ Success: NULL value inserted\n" : String) = sSep) := by decide
  by_cases hb : (o CallSite.bind2).code = 0 <;>
    by_cases he : (o CallSite.executeQueryIns2).code = 0 <;>
    simp [mainProg, okState, stepInstr, step, emit, negBlockSt, hb, he, occursB, callSeq,
      printedFailB, overwrite, sInitializing, sCreating, sTest1, sPosSuccess, sTest2, sBugLine,
      sNegSuccess, sCleaning, sSummaryHdr, sSummary1, sSummary2, hne1, hne2] <;>
    try (intro m hm; simp [hm])

/-- C3, witness: the bug-reproducing driver run observes the bind failure,
prints the failure report and the bug line, and still exits 0. -/
theorem claim3_witness :
    allOkB buggyDriverOracle = true ∧
    printedFailB (run buggyDriverOracle).trace = true ∧
    Event.printOut sBugLine ∈ (run buggyDriverOracle).trace ∧
    (run buggyDriverOracle).exitCode = 0 :=
  ⟨by decide,
   ((claim3_negative_path_outcomes buggyDriverOracle (by decide)).2.1 (by decide)).1,
   ((claim3_negative_path_outcomes buggyDriverOracle (by decide)).2.1 (by decide)).2.1,
   (claim3_negative_path_outcomes buggyDriverOracle (by decide)).2.2.2.2.1⟩

/-- A checked call records its call event (with the batch it binds) in the
trace whether it succeeds or takes the fatal exit. -/
theorem mem_execProg_call (o : Oracle) (c : CallSite) (arg : Option Batch)
    (rest : List Instr) (s : St) :
    Event.callEv c arg ((o c).code) ∈ (execProg o (Instr.call c arg :: rest) s).trace := by
  by_cases hc : (o c).code = 0
  · simp only [execProg, hc, if_true]
    exact mem_execProg _ _ _ _ (by simp [step, hc])
  · simp [execProg, hc, fatal, emit, step]

/-- The negative-path block always records the bind call with its batch. -/
theorem mem_negBlockSt (o : Oracle) (s : St) :
    Event.callEv CallSite.bind2 (some negativeBatch) ((o CallSite.bind2).code) ∈
      (negBlockSt o s).trace := by
  unfold negBlockSt
  by_cases hb : (o CallSite.bind2).code = 0 <;>
    by_cases he : (o CallSite.executeQueryIns2).code = 0 <;>
    simp [hb, he, step, emit]

/-- Concatenation splits the no-abort test. -/
theorem progOkB_append (o : Oracle) (p1 p2 : List Instr) :
    progOkB o (p1 ++ p2) = (progOkB o p1 && progOkB o p2) := by
  simp [progOkB, List.all_append]

/-- The checked calls before the positive bind are the first 14 guarded
sites. -/
theorem progOk_take20 (o : Oracle) :
    progOkB o (mainProg.take 20) = allOn o checkedBeforeBind1 := by
  simp [progOkB, allOn, mainProg, checkedBeforeBind1, guardedSites]

/-- The checked calls before the negative block are all 18 guarded sites. -/
theorem progOk_take29 (o : Oracle) :
    progOkB o (mainProg.take 29) = allOkB o := by
  simp [progOkB, allOkB, allOn, mainProg, guardedSites]

set_option maxHeartbeats 1000000 in
/-- C5: on any run that reaches the positive-path insert, the batch bound
at line 95 is exactly the two-column batch of lines 78-93: two string
columns named "0" and "1", each with a single non-null value, matching the
two dollar placeholders of the insert query; and when the bind and execute
also return OK the test-1 success line is printed. -/
theorem claim5_positive_insert (o : Oracle) (h : allOn o checkedBeforeBind1 = true) :
    (∃ k, Event.callEv CallSite.bind1 (some positiveBatch) k ∈ (run o).trace) ∧
    positiveBatch.map Column.typ = [ArrowType.string, ArrowType.string] ∧
    positiveBatch.map Column.name = ["0", "1"] ∧
    (∀ col ∈ positiveBatch, ∃ v, col.values = [some v]) ∧
    queryOf CallSite.setSqlQueryIns1 = some insertQuery ∧
    placeholderCount insertQuery = 2 ∧
    ((o CallSite.bind1).code = 0 → (o CallSite.executeQueryIns1).code = 0 →
      Event.printOut sPosSuccess ∈ (run o).trace) := by
  have hok : progOkB o (mainProg.take 20) = true := by
    rw [progOk_take20]
    exact h
  refine ⟨?_, by decide, by decide, ?_, rfl, by decide, ?_⟩
  · refine ⟨(o CallSite.bind1).code, ?_⟩
    rw [run, ← List.take_append_drop 20 mainProg, execProg_append, if_pos hok]
    have hdrop : mainProg.drop 20 =
        Instr.call CallSite.bind1 (some positiveBatch) :: mainProg.drop 21 := rfl
    rw [hdrop]
    exact mem_execProg_call o CallSite.bind1 (some positiveBatch) _ _
  · intro col hcol
    simp only [positiveBatch, List.mem_cons, List.not_mem_nil, or_false] at hcol
    rcases hcol with hcol | hcol <;> subst hcol
    · exact ⟨"Alice", rfl⟩
    · exact ⟨"alice@example.com", rfl⟩
  · intro hb1 he1
    have h23 : mainProg.take 23 = mainProg.take 20 ++
        [Instr.call CallSite.bind1 (some positiveBatch),
         Instr.call CallSite.executeQueryIns1 none, Instr.print sPosSuccess] := rfl
    have hok23 : progOkB o (mainProg.take 23) = true := by
      rw [h23, progOkB_append, hok]
      simp [progOkB, hb1, he1]
    rw [run, ← List.take_append_drop 23 mainProg, execProg_append, if_pos hok23]
    apply mem_execProg
    simp [mainProg, okState, stepInstr, step, emit, List.take_succ_cons, List.take_zero]

/-- C5, witness: the all-OK run binds the positive batch and prints the
test-1 success line. -/
theorem claim5_witness :
    allOn allOkOracle checkedBeforeBind1 = true ∧
    (∃ k, Event.callEv CallSite.bind1 (some positiveBatch) k ∈ (run allOkOracle).trace) ∧
    Event.printOut sPosSuccess ∈ (run allOkOracle).trace :=
  ⟨by decide, (claim5_positive_insert allOkOracle (by decide)).1,
   (claim5_positive_insert allOkOracle (by decide)).2.2.2.2.2.2 (by decide) (by decide)⟩

set_option maxHeartbeats 1000000 in
/-- C6: on any run that reaches the negative-path insert, the batch bound
at line 127 is exactly the batch of lines 111-125: first column string
"Bob" (non-null), second column typed NANOARROW_TYPE_NA holding exactly one
null entry, bound to the same two-placeholder insert query. -/
theorem claim6_negative_batch (o : Oracle) (h : allOkB o = true) :
    (∃ k, Event.callEv CallSite.bind2 (some negativeBatch) k ∈ (run o).trace) ∧
    negativeBatch.map Column.typ = [ArrowType.string, ArrowType.na] ∧
    negativeBatch.map Column.name = ["0", "1"] ∧
    (∃ col1 col2, negativeBatch = [col1, col2] ∧
      col1.values = [some "Bob"] ∧ col2.values = [none]) ∧
    queryOf CallSite.setSqlQueryIns2 = some insertQuery ∧
    placeholderCount insertQuery = 2 := by
  have hok : progOkB o (mainProg.take 29) = true := by
    rw [progOk_take29]
    exact h
  refine ⟨?_, by decide, by decide, ?_, rfl, by decide⟩
  · refine ⟨(o CallSite.bind2).code, ?_⟩
    rw [run, ← List.take_append_drop 29 mainProg, execProg_append, if_pos hok]
    have hdrop : mainProg.drop 29 = Instr.negBlock :: mainProg.drop 30 := rfl
    rw [hdrop]
    have hmem := mem_negBlockSt o (okState o (List.take 29 mainProg) ⟨[], none⟩)
    simp only [execProg, stepInstr, emit, step]
    simp [List.mem_append, hmem]
  · exact ⟨_, _, rfl, rfl, rfl⟩

/-- A run where the negative-path bind succeeds but the execute fails. -/
def negExecFailOracle : Oracle := fun c =>
  match c with
  | CallSite.executeQueryIns2 => ⟨1, some "invalid input"⟩
  | _ => ⟨0, none⟩

/-- C6, witness: the bug-reproducing driver run reaches line 127 and binds
the NA-typed batch. -/
theorem claim6_witness :
    allOkB buggyDriverOracle = true ∧
    (∃ k, Event.callEv CallSite.bind2 (some negativeBatch) k ∈ (run buggyDriverOracle).trace) ∧
    negativeBatch.map Column.typ = [ArrowType.string, ArrowType.na] :=
  ⟨by decide, (claim6_negative_batch buggyDriverOracle (by decide)).1,
   (claim6_negative_batch buggyDriverOracle (by decide)).2.1⟩

set_option maxHeartbeats 2000000 in
/-- C8: every run that completes without a fatal error ends with the same
five summary prints (lines 149-153), whatever the negative-path outcome
was: the last five events are fixed text claiming success for non-NULL and
the na mapping failure for NULL. -/
theorem claim8_summary_fixed (o : Oracle) (h : allOkB o = true) :
    (run o).trace.reverse.take 5 =
      [Event.printOut sSep, Event.printOut sSummary2, Event.printOut sSummary1,
       Event.printOut sSummaryHdr, Event.printOut sSepNL] := by
  rw [run_allOk o h]
  by_cases hb : (o CallSite.bind2).code = 0 <;>
    by_cases he : (o CallSite.executeQueryIns2).code = 0 <;>
    simp [mainProg, okState, stepInstr, step, emit, negBlockSt, hb, he]

/-- C8, witness: the summary tail of the driver run where the negative
execute fails. -/
theorem claim8_witness :
    allOkB negExecFailOracle = true ∧
    (run negExecFailOracle).trace.reverse.take 5 =
      [Event.printOut sSep, Event.printOut sSummary2, Event.printOut sSummary1,
       Event.printOut sSummaryHdr, Event.printOut sSepNL] :=
  ⟨by decide, claim8_summary_fixed negExecFailOracle (by decide)⟩

/-- If the run aborts inside a prefix of main, no call site outside that
prefix ever occurs in the trace. -/
theorem stage_not_reached (o : Oracle) (k : Nat) (c : CallSite)
    (hfail : progOkB o (mainProg.take k) = false)
    (hc : c ∉ sitesOf (mainProg.take k)) :
    occursB (run o).trace c = false := by
  have hrun : run o = execProg o (mainProg.take k) ⟨[], none⟩ := by
    rw [run]
    conv_lhs => rw [← List.take_append_drop k mainProg]
    rw [execProg_append, hfail]
    simp
  obtain ⟨t, ht, hsub⟩ := execProg_callSeq o (mainProg.take k) ⟨[], none⟩
  rw [hrun, occursB, ht]
  simp only [callSeq, List.filterMap_nil, List.nil_append]
  cases hel : t.elem c
  · rfl
  · exact absurd (hsub.subset (List.mem_of_elem_eq_true hel)) hc

theorem progOk_take5 (o : Oracle) :
    progOkB o (mainProg.take 5) = allOn o checkedDbSetup := by
  simp [progOkB, allOn, mainProg, checkedDbSetup, guardedSites]

theorem progOk_take7 (o : Oracle) :
    progOkB o (mainProg.take 7) = allOn o checkedSetup := by
  simp [progOkB, allOn, mainProg, checkedSetup, guardedSites]

theorem progOk_take16 (o : Oracle) :
    progOkB o (mainProg.take 16) = allOn o checkedThroughSchema := by
  simp [progOkB, allOn, mainProg, checkedThroughSchema, guardedSites]

theorem progOk_take25 (o : Oracle) :
    progOkB o (mainProg.take 25) = allOn o checkedThroughPositive := by
  simp [progOkB, allOn, mainProg, checkedThroughPositive, guardedSites]

/-- Claim C4 as stated: driver calls occur in strict program order and no
later stage performs a call unless every call of every earlier stage
(release calls included) returned OK. -/
def claimC4 : Prop :=
  ∀ o : Oracle,
    List.Sublist (callSeq (run o).trace) programOrder ∧
    stageGuardB (run o).trace = true

/-- C4, counterexample: the statuses of the intermediate statement releases
are ignored, so when AdbcStatementRelease at line 61 returns non-OK the
positive and negative stages still run: a schema-stage call returned non-OK
yet later stages performed their calls. -/
theorem claim4_counterexample : ¬ claimC4 := fun h =>
  absurd (h releaseFailOracle).2 (by decide)

set_option maxHeartbeats 1000000 in
/-- C4, amended: calls happen in strict program order (drop-if-exists
before create, each DDL on its own statement handle released after
execution, positive insert before negative insert), and a later stage runs
only if every status-checked call of the earlier stages returned OK; the
statuses of the ignored release calls do not gate progress. -/
theorem claim4_sequential_order (o : Oracle) :
    List.Sublist (callSeq (run o).trace) programOrder ∧
    queryOf CallSite.setSqlQueryDrop = some dropQuery ∧
    queryOf CallSite.setSqlQueryCreate = some createQuery ∧
    (occursAnyB (run o).trace connSetupSites = true → allOn o checkedDbSetup = true) ∧
    (occursAnyB (run o).trace schemaSites = true → allOn o checkedSetup = true) ∧
    (occursAnyB (run o).trace positiveSites = true → allOn o checkedThroughSchema = true) ∧
    (occursAnyB (run o).trace negativeSites = true → allOn o checkedThroughPositive = true) := by
  refine ⟨?_, rfl, rfl, ?_, ?_, ?_, ?_⟩
  · obtain ⟨t, ht, hsub⟩ := execProg_callSeq o mainProg ⟨[], none⟩
    rw [run, ht]
    simp only [callSeq, List.filterMap_nil, List.nil_append]
    have hsites : sitesOf mainProg = programOrder := rfl
    rw [hsites] at hsub
    exact hsub
  · intro hocc
    by_contra hno
    have hfail : progOkB o (mainProg.take 5) = false := by
      rw [progOk_take5]
      exact Bool.eq_false_iff.mpr hno
    have ha1 := stage_not_reached o 5 CallSite.connectionNew hfail (by decide)
    have ha2 := stage_not_reached o 5 CallSite.connectionInit hfail (by decide)
    simp [occursAnyB, connSetupSites, ha1, ha2] at hocc
  · intro hocc
    by_contra hno
    have hfail : progOkB o (mainProg.take 7) = false := by
      rw [progOk_take7]
      exact Bool.eq_false_iff.mpr hno
    have ha1 := stage_not_reached o 7 CallSite.statementNew1 hfail (by decide)
    have ha2 := stage_not_reached o 7 CallSite.setSqlQueryDrop hfail (by decide)
    have ha3 := stage_not_reached o 7 CallSite.executeQueryDrop hfail (by decide)
    have ha4 := stage_not_reached o 7 CallSite.statementRelease1 hfail (by decide)
    have ha5 := stage_not_reached o 7 CallSite.statementNew2 hfail (by decide)
    have ha6 := stage_not_reached o 7 CallSite.setSqlQueryCreate hfail (by decide)
    have ha7 := stage_not_reached o 7 CallSite.executeQueryCreate hfail (by decide)
    have ha8 := stage_not_reached o 7 CallSite.statementRelease2 hfail (by decide)
    simp [occursAnyB, schemaSites, ha1, ha2, ha3, ha4, ha5, ha6, ha7, ha8] at hocc
  · intro hocc
    by_contra hno
    have hfail : progOkB o (mainProg.take 16) = false := by
      rw [progOk_take16]
      exact Bool.eq_false_iff.mpr hno
    have ha1 := stage_not_reached o 16 CallSite.statementNew3 hfail (by decide)
    have ha2 := stage_not_reached o 16 CallSite.setSqlQueryIns1 hfail (by decide)
    have ha3 := stage_not_reached o 16 CallSite.bind1 hfail (by decide)
    have ha4 := stage_not_reached o 16 CallSite.executeQueryIns1 hfail (by decide)
    have ha5 := stage_not_reached o 16 CallSite.statementRelease3 hfail (by decide)
    simp [occursAnyB, positiveSites, ha1, ha2, ha3, ha4, ha5] at hocc
  · intro hocc
    by_contra hno
    have hfail : progOkB o (mainProg.take 25) = false := by
      rw [progOk_take25]
      exact Bool.eq_false_iff.mpr hno
    have ha1 := stage_not_reached o 25 CallSite.statementNew4 hfail (by decide)
    have ha2 := stage_not_reached o 25 CallSite.setSqlQueryIns2 hfail (by decide)
    have ha3 := stage_not_reached o 25 CallSite.bind2 hfail (by decide)
    have ha4 := stage_not_reached o 25 CallSite.executeQueryIns2 hfail (by decide)
    have ha5 := stage_not_reached o 25 CallSite.statementRelease4 hfail (by decide)
    simp [occursAnyB, negativeSites, ha1, ha2, ha3, ha4, ha5] at hocc

/-- C4, witness: the bug-reproducing run performs its calls in program
order, and its negative stage ran with all earlier checked calls OK. -/
theorem claim4_witness :
    List.Sublist (callSeq (run buggyDriverOracle).trace) programOrder ∧
    allOn buggyDriverOracle checkedThroughPositive = true :=
  ⟨(claim4_sequential_order buggyDriverOracle).1,
   (claim4_sequential_order buggyDriverOracle).2.2.2.2.2.2 (by decide)⟩

/-- Claim C7 as stated: when connection setup fails, the connection error
message is shown on standard output, the exit code is 1, and no
table-creation or insert calls occur. -/
def claimC7 : Prop :=
  ∀ (o : Oracle) (m : String),
    (o CallSite.databaseNew).code = 0 → (o CallSite.dbSetOptionDriver).code = 0 →
    (o CallSite.dbSetOptionUri).code = 0 → (o CallSite.databaseInit).code = 0 →
    (o CallSite.connectionNew).code = 0 → (o CallSite.connectionInit).code ≠ 0 →
    (o CallSite.connectionInit).msg = some m →
    stdoutShows (run o).trace m = true ∧ (run o).exitCode = 1 ∧
    occursAnyB (run o).trace tableOrInsertSites = false

/-- C7, counterexample: the CHECK_ADBC macro prints "Error: %s" to stderr
(line 32), not stdout: in the unreachable-store run nothing on standard
output contains the connection error text. -/
theorem claim7_counterexample : ¬ claimC7 := fun h =>
  absurd (h connFailOracle "connection refused" rfl rfl rfl rfl rfl (by decide) rfl).1
    (by decide)

/-- C7, amended: when AdbcConnectionInit fails the run consists of the one
banner print, the six setup calls, and the stderr error print carrying the
connection error message; the exit code is 1 and no table-creation or
insert call occurs. The message reaches standard error, not standard
output. -/
theorem claim7_connect_failure (o : Oracle) (m : String)
    (h1 : (o CallSite.databaseNew).code = 0) (h2 : (o CallSite.dbSetOptionDriver).code = 0)
    (h3 : (o CallSite.dbSetOptionUri).code = 0) (h4 : (o CallSite.databaseInit).code = 0)
    (h5 : (o CallSite.connectionNew).code = 0) (h6 : (o CallSite.connectionInit).code ≠ 0)
    (h7 : (o CallSite.connectionInit).msg = some m) :
    (run o).trace = [Event.printOut sInitializing,
      Event.callEv CallSite.databaseNew none 0,
      Event.callEv CallSite.dbSetOptionDriver none 0,
      Event.callEv CallSite.dbSetOptionUri none 0,
      Event.callEv CallSite.databaseInit none 0,
      Event.callEv CallSite.connectionNew none 0,
      Event.callEv CallSite.connectionInit none ((o CallSite.connectionInit).code),
      Event.printErrMsg (some m)] ∧
    (run o).exitCode = 1 ∧
    Event.printErrMsg (some m) ∈ (run o).trace ∧
    occursAnyB (run o).trace tableOrInsertSites = false := by
  have hrun : run o = execProg o mainProg ⟨[], none⟩ := rfl
  rw [hrun]
  simp [mainProg, execProg, stepInstr, step, emit, fatal, h1, h2, h3, h4, h5, h6, h7,
    overwrite, occursAnyB, occursB, callSeq, tableOrInsertSites, schemaSites, positiveSites,
    negativeSites]

/-- C7, witness: the unreachable-store run exercises the amended claim. -/
theorem claim7_witness :
    (connFailOracle CallSite.connectionInit).code ≠ 0 ∧
    (run connFailOracle).exitCode = 1 ∧
    Event.printErrMsg (some "connection refused") ∈ (run connFailOracle).trace ∧
    occursAnyB (run connFailOracle).trace tableOrInsertSites = false :=
  ⟨by decide,
   (claim7_connect_failure connFailOracle "connection refused" rfl rfl rfl rfl rfl
     (by decide) rfl).2.1,
   (claim7_connect_failure connFailOracle "connection refused" rfl rfl rfl rfl rfl
     (by decide) rfl).2.2.1,
   (claim7_connect_failure connFailOracle "connection refused" rfl rfl rfl rfl rfl
     (by decide) rfl).2.2.2⟩

/-- C9: the AdbcError record of line 38 is zero-initialized, so its message
field starts as the NULL pointer; when the very first driver call fails
without populating the record, the CHECK_ADBC fatal path passes that NULL
message to fprintf: the printed message value is the initial none. -/
theorem claim9_null_message_read (o : Oracle)
    (h1 : (o CallSite.databaseNew).code ≠ 0)
    (h2 : (o CallSite.databaseNew).msg = none) :
    (run o).trace = [Event.printOut sInitializing,
      Event.callEv CallSite.databaseNew none ((o CallSite.databaseNew).code),
      Event.printErrMsg none] ∧
    (run o).exitCode = 1 := by
  have hrun : run o = execProg o mainProg ⟨[], none⟩ := rfl
  rw [hrun]
  simp [mainProg, execProg, stepInstr, step, emit, fatal, h1, h2, overwrite]

/-- C9, witness: the run whose first call fails silently prints the NULL
message field. -/
theorem claim9_witness :
    (firstFailOracle CallSite.databaseNew).code ≠ 0 ∧
    (run firstFailOracle).trace = [Event.printOut sInitializing,
      Event.callEv CallSite.databaseNew none 1,
      Event.printErrMsg none] ∧
    (run firstFailOracle).exitCode = 1 :=
  ⟨by decide,
   (claim9_null_message_read firstFailOracle (by decide) rfl).1,
   (claim9_null_message_read firstFailOracle (by decide) rfl).2⟩

/-- C10: the run is a deterministic function of the driver statuses and
messages alone: two drivers that agree at every call site give identical
traces (hence identical printed output) and identical exit codes. The
embedding takes no other input: no CLI flags, environment or files occur
in the model. -/
theorem claim10_deterministic (o1 o2 : Oracle) (h : ∀ c, o1 c = o2 c) :
    run o1 = run o2 := by
  have heq : o1 = o2 := funext h
  rw [heq]

/-- C10, witness: applied at the all-OK driver. -/
theorem claim10_witness : run allOkOracle = run allOkOracle :=
  claim10_deterministic allOkOracle allOkOracle (fun _ => rfl)
